import Mathlib

/-!
Verification development for the Alex robot control stack (CG2111A):
a shallow embedding of the device-side Arduino sketch (`Alex.ino`, the
motion file, the ultrasonic file, `colour.ino`) and of the operator-side
relay (`tls-alex-client.cpp`), together with theorems settling the frozen
claims about the packet protocol and command-dispatch layer.

Machine integers (`unsigned long` / `uint32_t` on the device) are modelled
as `Nat` with an explicit `% 2^32` wherever the source arithmetic can wrap.
-/

namespace Alex

/-- 32-bit wrap modulus for the device's `unsigned long` counters. -/
def WRAP32 : Nat := 4294967296

/-- `c++` on a 32-bit unsigned counter. -/
def inc32 (n : Nat) : Nat := (n + 1) % WRAP32

/-- Modelled from the spec: `constants.h` is not under `src/`; §3/§6 of the
spec enumerate the five packet kinds HELLO/COMMAND/RESPONSE/ERROR/MESSAGE.
Concrete numbering is chosen here; only distinctness of the values is used. -/
def PACKET_TYPE_COMMAND : Nat := 0

/-- Modelled from the spec: packet kind RESPONSE (see `PACKET_TYPE_COMMAND`). -/
def PACKET_TYPE_RESPONSE : Nat := 1

/-- Modelled from the spec: packet kind ERROR (see `PACKET_TYPE_COMMAND`). -/
def PACKET_TYPE_ERROR : Nat := 2

/-- Modelled from the spec: packet kind MESSAGE (see `PACKET_TYPE_COMMAND`). -/
def PACKET_TYPE_MESSAGE : Nat := 3

/-- Modelled from the spec: packet kind HELLO (see `PACKET_TYPE_COMMAND`). -/
def PACKET_TYPE_HELLO : Nat := 4

/-- Modelled from the spec: response code RESP_OK (§6 of the spec lists the
eight response/error codes; `constants.h` is not under `src/`). -/
def RESP_OK : Nat := 0

/-- Modelled from the spec: response code RESP_STATUS. -/
def RESP_STATUS : Nat := 1

/-- Modelled from the spec: error code RESP_BAD_PACKET. -/
def RESP_BAD_PACKET : Nat := 2

/-- Modelled from the spec: error code RESP_BAD_CHECKSUM. -/
def RESP_BAD_CHECKSUM : Nat := 3

/-- Modelled from the spec: error code RESP_BAD_COMMAND. -/
def RESP_BAD_COMMAND : Nat := 4

/-- Modelled from the spec: error code RESP_BAD_RESPONSE. -/
def RESP_BAD_RESPONSE : Nat := 5

/-- Modelled from the spec: response code RESP_COLOUR. -/
def RESP_COLOUR : Nat := 6

/-- Modelled from the spec: response code RESP_ULTRASONIC. -/
def RESP_ULTRASONIC : Nat := 7

/-- Modelled from the spec: §6 lists the twelve device-side command codes
(`constants.h` is not under `src/`). Numbered 0..11 in the listed order;
only distinctness is used by the dispatch switch. -/
def COMMAND_FORWARD : Nat := 0

/-- Modelled from the spec: command code COMMAND_REVERSE. -/
def COMMAND_REVERSE : Nat := 1

/-- Modelled from the spec: command code COMMAND_TURN_LEFT. -/
def COMMAND_TURN_LEFT : Nat := 2

/-- Modelled from the spec: command code COMMAND_TURN_RIGHT. -/
def COMMAND_TURN_RIGHT : Nat := 3

/-- Modelled from the spec: command code COMMAND_STOP. -/
def COMMAND_STOP : Nat := 4

/-- Modelled from the spec: command code COMMAND_GET_STATS. -/
def COMMAND_GET_STATS : Nat := 5

/-- Modelled from the spec: command code COMMAND_CLEAR_STATS. -/
def COMMAND_CLEAR_STATS : Nat := 6

/-- Modelled from the spec: command code COMMAND_GRAB. -/
def COMMAND_GRAB : Nat := 7

/-- Modelled from the spec: command code COMMAND_RELEASE. -/
def COMMAND_RELEASE : Nat := 8

/-- Modelled from the spec: command code COMMAND_MED (deliver payload). -/
def COMMAND_MED : Nat := 9

/-- Modelled from the spec: command code COMMAND_COLOUR. -/
def COMMAND_COLOUR : Nat := 10

/-- Modelled from the spec: command code COMMAND_ULTRASONIC. -/
def COMMAND_ULTRASONIC : Nat := 11

/-- The list of the twelve defined command codes handled by the dispatch
switch in `handleCommand` (`Alex.ino`). -/
def definedCommands : List Nat :=
  [COMMAND_FORWARD, COMMAND_REVERSE, COMMAND_TURN_LEFT, COMMAND_TURN_RIGHT,
   COMMAND_STOP, COMMAND_GET_STATS, COMMAND_CLEAR_STATS, COMMAND_GRAB,
   COMMAND_RELEASE, COMMAND_MED, COMMAND_COLOUR, COMMAND_ULTRASONIC]

/-- The device's motion directions (`TDirection` in `constants.h`, not under
`src/`). Modelled from the spec: the four motion classes plus stop; `stop`
first, matching the zero initialisation of the global `dir`. -/
inductive TDirection where
  | stop
  | forward
  | backward
  | left
  | right
deriving DecidableEq

/-- A `TPacket` (`packet.h`, not under `src/`). Modelled from the spec §3/§6:
kind byte, code byte, sixteen 32-bit parameters. The `data` text buffer is
only used by MESSAGE packets and is irrelevant to every claim, so it is
omitted; parameters the source leaves uninitialised are modelled as 0
(no claim depends on them). -/
structure TPacket where
  packetType : Nat
  command : Nat
  params : List Nat
deriving DecidableEq

/-- Outcome of `readPacket` in `Alex.ino`: the `serialize` library is not
under `src/`; modelled from the spec §4.1 (Incomplete / IntegrityMismatch /
decode failure / success carrying the decoded packet). -/
inductive TResult where
  | ok (p : TPacket)
  | bad
  | checksumBad
  | incomplete
deriving DecidableEq

/-- The device's global state: direction, the eight tick counters, the two
revolution counters, the two cumulative distances, and the motion-bound
variables (`deltaDist`, `newDist`, `deltaTicks`, `targetTicks`) from
`Alex.ino`. -/
structure AlexState where
  dir : TDirection
  leftForwardTicks : Nat
  rightForwardTicks : Nat
  leftReverseTicks : Nat
  rightReverseTicks : Nat
  leftForwardTicksTurns : Nat
  rightForwardTicksTurns : Nat
  leftReverseTicksTurns : Nat
  rightReverseTicksTurns : Nat
  leftRevs : Nat
  rightRevs : Nat
  forwardDist : Nat
  reverseDist : Nat
  deltaDist : Nat
  newDist : Nat
  deltaTicks : Nat
  targetTicks : Nat
deriving DecidableEq

/-- Observable actions of the device: packets written to the serial link and
invocations of the out-of-scope actuator/sensor collaborators. -/
inductive Event where
  | sent (p : TPacket)
  | moved (speed : Nat) (d : TDirection)
  | grabbed
  | released
  | medpacked
  | colourRead
  | ultrasonicRead
deriving DecidableEq

/-- Sensor readings consumed by the query commands. `readUltrasonic` and the
colour-frequency reads are out-of-scope hardware sampling; `evaluateColour`
classifies with single-precision float arithmetic, so the resulting index is
taken as an input as well. -/
structure SensorInputs where
  colourR : Nat
  colourG : Nat
  colourB : Nat
  colourIndex : Nat
  ultrasonicDist : Nat
deriving DecidableEq

/-- `sendOK` in `Alex.ino`: a RESPONSE packet with code RESP_OK. -/
def okPacket : TPacket :=
  ⟨PACKET_TYPE_RESPONSE, RESP_OK, List.replicate 16 0⟩

/-- `sendBadPacket` in `Alex.ino`: an ERROR packet with code RESP_BAD_PACKET. -/
def badPacketPacket : TPacket :=
  ⟨PACKET_TYPE_ERROR, RESP_BAD_PACKET, List.replicate 16 0⟩

/-- `sendBadChecksum` in `Alex.ino`: an ERROR packet with code RESP_BAD_CHECKSUM. -/
def badChecksumPacket : TPacket :=
  ⟨PACKET_TYPE_ERROR, RESP_BAD_CHECKSUM, List.replicate 16 0⟩

/-- `sendBadCommand` in `Alex.ino`: an ERROR packet with code RESP_BAD_COMMAND. -/
def badCommandPacket : TPacket :=
  ⟨PACKET_TYPE_ERROR, RESP_BAD_COMMAND, List.replicate 16 0⟩

/-- `sendBadResponse` in `Alex.ino`: an ERROR packet with code RESP_BAD_RESPONSE. -/
def badResponsePacket : TPacket :=
  ⟨PACKET_TYPE_ERROR, RESP_BAD_RESPONSE, List.replicate 16 0⟩

/-- `sendStatus` in `Alex.ino`: packs the telemetry counters into slots 0..9
of a RESPONSE/RESP_STATUS packet, in the source's assignment order. -/
def sendStatus (s : AlexState) : TPacket :=
  ⟨PACKET_TYPE_RESPONSE, RESP_STATUS,
   [s.leftForwardTicks, s.rightForwardTicks, s.leftReverseTicks,
    s.rightReverseTicks, s.leftForwardTicksTurns, s.rightForwardTicksTurns,
    s.leftReverseTicksTurns, s.rightReverseTicksTurns,
    s.forwardDist, s.reverseDist] ++ List.replicate 6 0⟩

/-- `sendDist` in the ultrasonic file: a RESPONSE/RESP_ULTRASONIC packet with
the measured distance in slot 0. -/
def sendDist (distance : Nat) : TPacket :=
  ⟨PACKET_TYPE_RESPONSE, RESP_ULTRASONIC, distance :: List.replicate 15 0⟩

/-- The packet emitted by `readColour` in `colour.ino`: RESPONSE/RESP_COLOUR
with the three channel frequencies in slots 0..2 and the classified index
(computed by the float-based `evaluateColour`, abstracted as an input) in
slot 3. -/
def readColourPacket (i : SensorInputs) : TPacket :=
  ⟨PACKET_TYPE_RESPONSE, RESP_COLOUR,
   [i.colourR, i.colourG, i.colourB, i.colourIndex] ++ List.replicate 12 0⟩

/-- `alexCirc = PI * sqrt(ALEX_LENGTH² + ALEX_BREADTH²)` from `setup()` in
`Alex.ino`, in micro-units: the source computes it in single-precision
float (≈ 92.401470 cm); modelled in fixed point, no claim depends on the
exact rounded value. -/
def alexCircMicro : Nat := 92401470

/-- `computeDeltaTicks` in `Alex.ino`:
`ticks = (ang * alexCirc * COUNTS_PER_REV) / (360 * WHEEL_CIRC)`, with
`COUNTS_PER_REV = 4` and `WHEEL_CIRC = 18`, truncated to an unsigned long.
The source evaluates this in float; modelled with `alexCircMicro`. -/
def computeDeltaTicks (ang : Nat) : Nat :=
  ang * alexCircMicro * 4 / (360 * 18 * 1000000)

/-- `forward(dist, speed)` in the motion file: a positive target sets
`deltaDist = dist`, otherwise the 9999999 sentinel; `newDist` is the current
forward distance plus `deltaDist`; direction becomes FORWARD and the motors
are driven. -/
def forward (dist speed : Nat) (s : AlexState) : AlexState × List Event :=
  let dd := if dist > 0 then dist else 9999999
  ({ s with deltaDist := dd,
            newDist := (s.forwardDist + dd) % WRAP32,
            dir := TDirection.forward },
   [Event.moved speed TDirection.forward])

/-- `reverse(dist, speed)` in the motion file (mirror of `forward` on the
reverse distance). -/
def reverse (dist speed : Nat) (s : AlexState) : AlexState × List Event :=
  let dd := if dist > 0 then dist else 9999999
  ({ s with deltaDist := dd,
            newDist := (s.reverseDist + dd) % WRAP32,
            dir := TDirection.backward },
   [Event.moved speed TDirection.backward])

/-- `left(ang, speed)` in the motion file: angle zero sets the 9999999
sentinel, otherwise `computeDeltaTicks ang`; `targetTicks` is the current
left-reverse-turn tick counter plus `deltaTicks`. -/
def left (ang speed : Nat) (s : AlexState) : AlexState × List Event :=
  let dt := if ang = 0 then 9999999 else computeDeltaTicks ang
  ({ s with deltaTicks := dt,
            targetTicks := (s.leftReverseTicksTurns + dt) % WRAP32,
            dir := TDirection.left },
   [Event.moved speed TDirection.left])

/-- `right(ang, speed)` in the motion file (mirror of `left` on the
right-reverse-turn tick counter). -/
def right (ang speed : Nat) (s : AlexState) : AlexState × List Event :=
  let dt := if ang = 0 then 9999999 else computeDeltaTicks ang
  ({ s with deltaTicks := dt,
            targetTicks := (s.rightReverseTicksTurns + dt) % WRAP32,
            dir := TDirection.right },
   [Event.moved speed TDirection.right])

/-- `stop()` in the motion file: direction STOP, motors stopped. -/
def stop (s : AlexState) : AlexState × List Event :=
  ({ s with dir := TDirection.stop }, [Event.moved 0 TDirection.stop])

/-- `clearCounters` in `Alex.ino`: zeroes the eight tick counters, the two
revolution counters and the two cumulative distances. -/
def clearCounters (s : AlexState) : AlexState :=
  { s with leftForwardTicks := 0, rightForwardTicks := 0,
           leftReverseTicks := 0, rightReverseTicks := 0,
           leftForwardTicksTurns := 0, rightForwardTicksTurns := 0,
           rightReverseTicksTurns := 0, leftReverseTicksTurns := 0,
           leftRevs := 0, rightRevs := 0,
           forwardDist := 0, reverseDist := 0 }

/-- `clearOneCounter(which)` in `Alex.ino`: the argument is ignored and the
body is a bare call to `clearCounters`. -/
def clearOneCounter (which : Nat) (s : AlexState) : AlexState :=
  clearCounters s

/-- `forwardDist` / `reverseDist` update in `leftISR`:
`(unsigned long)((float)ticks / COUNTS_PER_REV * WHEEL_CIRC)` with
`COUNTS_PER_REV = 4`, `WHEEL_CIRC = 18`; the float intermediate is exact in
the operating range, so the truncation is `ticks * 18 / 4`. -/
def distFromTicks (t : Nat) : Nat := t * 18 / 4

/-- `leftISR` in `Alex.ino`: the switch on `dir` has a `break` in every case,
so exactly one left-wheel tick counter is incremented; afterwards the
matching cumulative distance is recomputed from the updated counter. -/
def leftISR (s : AlexState) : AlexState :=
  let s1 :=
    match s.dir with
    | TDirection.forward =>
        { s with leftForwardTicks := inc32 s.leftForwardTicks }
    | TDirection.backward =>
        { s with leftReverseTicks := inc32 s.leftReverseTicks }
    | TDirection.left =>
        { s with leftReverseTicksTurns := inc32 s.leftReverseTicksTurns }
    | TDirection.right =>
        { s with leftForwardTicksTurns := inc32 s.leftForwardTicksTurns }
    | TDirection.stop => s
  if s.dir = TDirection.forward then
    { s1 with forwardDist := distFromTicks s1.leftForwardTicks }
  else if s.dir = TDirection.backward then
    { s1 with reverseDist := distFromTicks s1.leftReverseTicks }
  else s1

/-- `rightISR` in `Alex.ino`: the switch on `dir` has no `break`, so each
case falls through to every later case — FORWARD increments all four
right-wheel counters, BACKWARD the last three, LEFT the last two, RIGHT the
last one. Encoded as the cascade of the four fall-through increments. -/
def rightISR (s : AlexState) : AlexState :=
  let s1 :=
    if s.dir = TDirection.forward then
      { s with rightForwardTicks := inc32 s.rightForwardTicks }
    else s
  let s2 :=
    if s.dir = TDirection.forward ∨ s.dir = TDirection.backward then
      { s1 with rightReverseTicks := inc32 s1.rightReverseTicks }
    else s1
  let s3 :=
    if s.dir = TDirection.forward ∨ s.dir = TDirection.backward ∨
       s.dir = TDirection.left then
      { s2 with rightForwardTicksTurns := inc32 s2.rightForwardTicksTurns }
    else s2
  if s.dir ≠ TDirection.stop then
    { s3 with rightReverseTicksTurns := inc32 s3.rightReverseTicksTurns }
  else s3

/-- `handleCommand` in `Alex.ino`: dispatch on the command code. Every
recognised code first sends OK, then invokes its collaborator; the query
commands additionally emit their RESPONSE packet; the default branch sends
a single BadCommand error and does nothing else. -/
def handleCommand (i : SensorInputs) (s : AlexState) (p : TPacket) :
    AlexState × List Event :=
  let g0 := p.params.getD 0 0
  let g1 := p.params.getD 1 0
  if p.command = COMMAND_FORWARD then
    ((forward g0 g1 s).1, Event.sent okPacket :: (forward g0 g1 s).2)
  else if p.command = COMMAND_REVERSE then
    ((reverse g0 g1 s).1, Event.sent okPacket :: (reverse g0 g1 s).2)
  else if p.command = COMMAND_TURN_RIGHT then
    ((right g0 g1 s).1, Event.sent okPacket :: (right g0 g1 s).2)
  else if p.command = COMMAND_TURN_LEFT then
    ((left g0 g1 s).1, Event.sent okPacket :: (left g0 g1 s).2)
  else if p.command = COMMAND_STOP then
    ((stop s).1, Event.sent okPacket :: (stop s).2)
  else if p.command = COMMAND_GET_STATS then
    (s, [Event.sent okPacket, Event.sent (sendStatus s)])
  else if p.command = COMMAND_CLEAR_STATS then
    (clearOneCounter g0 s, [Event.sent okPacket])
  else if p.command = COMMAND_GRAB then
    (s, [Event.sent okPacket, Event.grabbed])
  else if p.command = COMMAND_COLOUR then
    (s, [Event.sent okPacket, Event.colourRead, Event.sent (readColourPacket i)])
  else if p.command = COMMAND_ULTRASONIC then
    (s, [Event.sent okPacket, Event.ultrasonicRead,
         Event.sent (sendDist i.ultrasonicDist)])
  else if p.command = COMMAND_RELEASE then
    (s, [Event.sent okPacket, Event.released])
  else if p.command = COMMAND_MED then
    (s, [Event.sent okPacket, Event.medpacked])
  else
    (s, [Event.sent badCommandPacket])

/-- `handlePacket` in `Alex.ino`: only COMMAND packets are acted on; the
RESPONSE, ERROR, MESSAGE and HELLO cases are empty. -/
def handlePacket (i : SensorInputs) (s : AlexState) (p : TPacket) :
    AlexState × List Event :=
  if p.packetType = PACKET_TYPE_COMMAND then handleCommand i s p
  else (s, [])

/-- The `deltaDist` auto-stop block at the end of `loop()` in `Alex.ino`. -/
def autoStopDist (s : AlexState) : AlexState × List Event :=
  if s.deltaDist > 0 then
    if s.dir = TDirection.forward then
      if s.forwardDist > s.newDist then
        stop { s with deltaDist := 0, newDist := 0 }
      else (s, [])
    else if s.dir = TDirection.backward then
      if s.reverseDist > s.newDist then
        stop { s with deltaDist := 0, newDist := 0 }
      else (s, [])
    else if s.dir = TDirection.stop then
      stop { s with deltaDist := 0, newDist := 0 }
    else (s, [])
  else (s, [])

/-- The `deltaTicks` auto-stop block at the end of `loop()` in `Alex.ino`. -/
def autoStopTicks (s : AlexState) : AlexState × List Event :=
  if s.deltaTicks > 0 then
    if s.dir = TDirection.left then
      if s.leftReverseTicksTurns ≥ s.targetTicks then
        stop { s with deltaTicks := 0, targetTicks := 0 }
      else (s, [])
    else if s.dir = TDirection.right then
      if s.rightReverseTicksTurns ≥ s.targetTicks then
        stop { s with deltaTicks := 0, targetTicks := 0 }
      else (s, [])
    else if s.dir = TDirection.stop then
      stop { s with deltaTicks := 0, targetTicks := 0 }
    else (s, [])
  else (s, [])

/-- One iteration of `loop()` in `Alex.ino`: read a packet (a decoded packet
goes to `handlePacket`, a bad magic number elicits BadPacket, a bad checksum
elicits BadChecksum, an incomplete read does nothing), then run the two
auto-stop blocks. -/
def loopStep (i : SensorInputs) (s : AlexState) (r : TResult) :
    AlexState × List Event :=
  let a :=
    match r with
    | TResult.ok p => handlePacket i s p
    | TResult.bad => (s, [Event.sent badPacketPacket])
    | TResult.checksumBad => (s, [Event.sent badChecksumPacket])
    | TResult.incomplete => (s, [])
  let b := autoStopDist a.1
  let c := autoStopTicks b.1
  (c.1, a.2 ++ b.2 ++ c.2)

/-- Repeated invocation of `loop()` on a finite stream of read results. -/
def runLoop (i : SensorInputs) : AlexState → List TResult → AlexState × List Event
  | s, [] => (s, [])
  | s, r :: rest =>
      let a := loopStep i s r
      let b := runLoop i a.1 rest
      (b.1, a.2 ++ b.2)

/-- The device's globals before `setup()` runs: C zero-initialisation, with
`dir` at the first enumerator (STOP). -/
def initialState : AlexState :=
  ⟨TDirection.stop, 0, 0, 0, 0, 0, 0, 0, 0, 0, 0, 0, 0, 0, 0, 0, 0⟩

/-- The device-side main program as `setup()` and `loop()` define it:
`setup()` calls `initializeState` (= `clearCounters`) and then control
enters `loop()` forever. Note that `setup()` never calls `waitForHello` —
the handshake function is dead code in this sketch. -/
def deviceMain (i : SensorInputs) (input : List TResult) :
    AlexState × List Event :=
  runLoop i (clearCounters initialState) input

/-- `waitForHello` in `Alex.ino`, as a function of the successive outcomes of
`readPacket`: incomplete reads are retried silently; a decoded non-HELLO
packet elicits BadResponse, a failed decode BadPacket, a bad checksum
BadChecksum, and in each case the loop continues; a decoded HELLO sends OK
and exits. Returns the packets sent, or `none` if the stream is exhausted
before a HELLO arrives. -/
def waitForHello : List TResult → Option (List TPacket)
  | [] => none
  | TResult.incomplete :: rest => waitForHello rest
  | TResult.ok p :: rest =>
      if p.packetType = PACKET_TYPE_HELLO then some [okPacket]
      else (waitForHello rest).map (fun out => badResponsePacket :: out)
  | TResult.bad :: rest =>
      (waitForHello rest).map (fun out => badPacketPacket :: out)
  | TResult.checksumBad :: rest =>
      (waitForHello rest).map (fun out => badChecksumPacket :: out)

/-- A COMMAND/STOP packet, used to exercise the dispatch path. -/
def commandStopPacket : TPacket :=
  ⟨PACKET_TYPE_COMMAND, COMMAND_STOP, List.replicate 16 0⟩

/-- The reply `waitForHello` emits for one non-exiting read outcome. -/
def helloReply : TResult → Option TPacket
  | TResult.incomplete => none
  | TResult.ok p =>
      if p.packetType = PACKET_TYPE_HELLO then none
      else some badResponsePacket
  | TResult.bad => some badPacketPacket
  | TResult.checksumBad => some badChecksumPacket

/-- Whether a read outcome is a successfully decoded HELLO packet (the only
outcome on which `waitForHello` exits). -/
def isHelloFrame : TResult → Bool
  | TResult.ok p => p.packetType = PACKET_TYPE_HELLO
  | _ => false

end Alex

namespace AlexClient

/-- Modelled from the spec: `netconstants.h` is not under `src/`; the network
COMMAND packet-type byte placed in `buffer[0]` by `writerThread`. Only its
fixedness matters. -/
def NET_COMMAND_PACKET : Nat := 67

/-- `DEFAULT_DIST` in `tls-alex-client.cpp`. -/
def DEFAULT_DIST : Nat := 5

/-- `DEFAULT_POWER` in `tls-alex-client.cpp`. -/
def DEFAULT_POWER : Nat := 50

/-- `DEFAULT_ANG` in `tls-alex-client.cpp`. -/
def DEFAULT_ANG : Nat := 90

/-- `TURNING_POWER` in `tls-alex-client.cpp`. -/
def TURNING_POWER : Nat := 100

/-- Little-endian byte serialisation of an `int32_t`, as `memcpy` of the
parameter produces on the little-endian operator machine. -/
def natToBytesLE4 (v : Nat) : List Nat :=
  let u := v % 4294967296
  [u % 256, u / 256 % 256, u / 65536 % 256, u / 16777216 % 256]

/-- The 10-byte buffer `writerThread` builds for one keystroke: the network
COMMAND type byte, the command character, then the two 4-byte parameters. -/
def commandBuffer (code p0 p1 : Nat) : List Nat :=
  NET_COMMAND_PACKET :: code :: (natToBytesLE4 p0 ++ natToBytesLE4 p1)

/-- What `writerThread`'s switch does for one keystroke. -/
inductive WriterAction where
  | send (buffer : List Nat)
  | quit
  | badKey
deriving DecidableEq

/-- The keystroke switch in `writerThread` of `tls-alex-client.cpp`:
forward/reverse keys carry (DEFAULT_DIST, DEFAULT_POWER), turn keys
(DEFAULT_ANG, TURNING_POWER), the queries and stop/clear/get-stats (0, 0);
note key 'v' maps to command byte 'u' and key 't' to 'm'; 'q'/'Q' quit
without sending; anything else prints BAD COMMAND. -/
def writerKey (ch : Char) : WriterAction :=
  match ch with
  | 'f' => WriterAction.send (commandBuffer 102 DEFAULT_DIST DEFAULT_POWER)
  | 'F' => WriterAction.send (commandBuffer 70 DEFAULT_DIST DEFAULT_POWER)
  | 'b' => WriterAction.send (commandBuffer 98 DEFAULT_DIST DEFAULT_POWER)
  | 'B' => WriterAction.send (commandBuffer 66 DEFAULT_DIST DEFAULT_POWER)
  | 'l' => WriterAction.send (commandBuffer 108 DEFAULT_ANG TURNING_POWER)
  | 'L' => WriterAction.send (commandBuffer 76 DEFAULT_ANG TURNING_POWER)
  | 'r' => WriterAction.send (commandBuffer 114 DEFAULT_ANG TURNING_POWER)
  | 'R' => WriterAction.send (commandBuffer 82 DEFAULT_ANG TURNING_POWER)
  | 'h' => WriterAction.send (commandBuffer 104 0 0)
  | 'v' => WriterAction.send (commandBuffer 117 0 0)
  | 't' => WriterAction.send (commandBuffer 109 0 0)
  | 's' => WriterAction.send (commandBuffer 115 0 0)
  | 'S' => WriterAction.send (commandBuffer 83 0 0)
  | 'c' => WriterAction.send (commandBuffer 99 0 0)
  | 'C' => WriterAction.send (commandBuffer 67 0 0)
  | 'g' => WriterAction.send (commandBuffer 103 0 0)
  | 'G' => WriterAction.send (commandBuffer 71 0 0)
  | 'q' => WriterAction.quit
  | 'Q' => WriterAction.quit
  | _ => WriterAction.badKey

/-- `sizeof(buffer)` inside `sendData`, where `buffer` is a `const char *`
parameter: the size of a pointer (8 on the LP64 operator machine), not the
length of the array the caller passed. -/
def SIZEOF_CHAR_PTR : Nat := 8

/-- `sendData` in `tls-alex-client.cpp`: if the network is active it calls
`sslWrite(conn, buffer, sizeof(buffer))` — `sizeof` of the pointer
parameter, not the `len` argument it received and printed. `sslWrite`
(library code, not under `src/`) is modelled as writing exactly the
requested number of bytes from the buffer and returning that count, so the
bytes put on the wire are `buffer.take SIZEOF_CHAR_PTR` and the flag stays
active. Returns (bytes written, new networkActive flag). -/
def sendData (networkActive : Bool) (buffer : List Nat) : List Nat × Bool :=
  if networkActive then (buffer.take SIZEOF_CHAR_PTR, true)
  else ([], networkActive)

/-- `handleStatus` in `tls-alex-client.cpp` reads the sixteen 32-bit values
after the type byte and labels the first ten positionally; this record
carries those ten labelled readings. -/
structure StatusReport where
  leftForwardTicks : Nat
  rightForwardTicks : Nat
  leftReverseTicks : Nat
  rightReverseTicks : Nat
  leftForwardTicksTurns : Nat
  rightForwardTicksTurns : Nat
  leftReverseTicksTurns : Nat
  rightReverseTicksTurns : Nat
  forwardDist : Nat
  reverseDist : Nat
deriving DecidableEq

/-- `handleStatus` in `tls-alex-client.cpp`: positional read-back of the
status parameters (slot 0 printed as Left Forward Ticks, … slot 9 as
Reverse Distance). -/
def handleStatus (data : List Nat) : StatusReport :=
  ⟨data.getD 0 0, data.getD 1 0, data.getD 2 0, data.getD 3 0,
   data.getD 4 0, data.getD 5 0, data.getD 6 0, data.getD 7 0,
   data.getD 8 0, data.getD 9 0⟩

end AlexClient

namespace Alex

/-- C5: `sendStatus` places the counters in slots 0..9 in the fixed order
left-forward, right-forward, left-reverse, right-reverse ticks, then the
four turn-tick counters in the same wheel order, then cumulative forward
and reverse distance; the operator-side `handleStatus` reads them back at
exactly those positions, so both ends agree on the positional wire
contract. -/
theorem C5_status_positional_contract (s : AlexState) :
    (sendStatus s).packetType = PACKET_TYPE_RESPONSE ∧
    (sendStatus s).command = RESP_STATUS ∧
    AlexClient.handleStatus (sendStatus s).params =
      ⟨s.leftForwardTicks, s.rightForwardTicks, s.leftReverseTicks,
       s.rightReverseTicks, s.leftForwardTicksTurns, s.rightForwardTicksTurns,
       s.leftReverseTicksTurns, s.rightReverseTicksTurns,
       s.forwardDist, s.reverseDist⟩ :=
  ⟨rfl, rfl, rfl⟩

/-- C7: every movement command with target 0 sets its stopping bound to the
single sentinel 9999999; every strictly positive target derives the bound
from the target — the distance is added (mod 2³²) to the current distance
counter, the angle is converted to ticks and added to the current
reverse-turn tick counter of the turning wheel. Stated unconditionally via
the source's own guards. -/
theorem C7_zero_target_sentinel (d a pw : Nat) (s : AlexState) :
    (forward d pw s).1.deltaDist = (if d > 0 then d else 9999999) ∧
    (forward d pw s).1.newDist =
      (s.forwardDist + (if d > 0 then d else 9999999)) % WRAP32 ∧
    (reverse d pw s).1.deltaDist = (if d > 0 then d else 9999999) ∧
    (reverse d pw s).1.newDist =
      (s.reverseDist + (if d > 0 then d else 9999999)) % WRAP32 ∧
    (left a pw s).1.deltaTicks =
      (if a = 0 then 9999999 else computeDeltaTicks a) ∧
    (left a pw s).1.targetTicks =
      (s.leftReverseTicksTurns +
        (if a = 0 then 9999999 else computeDeltaTicks a)) % WRAP32 ∧
    (right a pw s).1.deltaTicks =
      (if a = 0 then 9999999 else computeDeltaTicks a) ∧
    (right a pw s).1.targetTicks =
      (s.rightReverseTicksTurns +
        (if a = 0 then 9999999 else computeDeltaTicks a)) % WRAP32 :=
  ⟨rfl, rfl, rfl, rfl, rfl, rfl, rfl, rfl⟩

/-- C8: `clearOneCounter` ignores its argument and always performs the full
`clearCounters`, so the post-state is identical for every input value and
every counter — the eight tick counters, both revolution counters and both
cumulative distances — is zero; dispatching COMMAND_CLEAR_STATS therefore
clears everything regardless of the packet's first parameter. -/
theorem C8_clear_stats_ignores_argument (v w : Nat) (i : SensorInputs)
    (s : AlexState) (ps : List Nat) :
    clearOneCounter v s = clearOneCounter w s ∧
    clearOneCounter v s = clearCounters s ∧
    (clearOneCounter v s).leftForwardTicks = 0 ∧
    (clearOneCounter v s).rightForwardTicks = 0 ∧
    (clearOneCounter v s).leftReverseTicks = 0 ∧
    (clearOneCounter v s).rightReverseTicks = 0 ∧
    (clearOneCounter v s).leftForwardTicksTurns = 0 ∧
    (clearOneCounter v s).rightForwardTicksTurns = 0 ∧
    (clearOneCounter v s).leftReverseTicksTurns = 0 ∧
    (clearOneCounter v s).rightReverseTicksTurns = 0 ∧
    (clearOneCounter v s).leftRevs = 0 ∧
    (clearOneCounter v s).rightRevs = 0 ∧
    (clearOneCounter v s).forwardDist = 0 ∧
    (clearOneCounter v s).reverseDist = 0 ∧
    handleCommand i s ⟨PACKET_TYPE_COMMAND, COMMAND_CLEAR_STATS, ps⟩ =
      (clearCounters s, [Event.sent okPacket]) :=
  ⟨rfl, rfl, rfl, rfl, rfl, rfl, rfl, rfl, rfl, rfl, rfl, rfl, rfl, rfl, rfl⟩

/-- C9: a left-wheel encoder tick increments exactly the one left-wheel
counter matching the current direction (every `leftISR` case has a
`break`), while `rightISR`'s cases fall through: FORWARD increments all
four right-wheel counters, BACKWARD the last three, LEFT the last two,
RIGHT only the last; neither ISR touches the other wheel's tick counters. -/
theorem C9_rightISR_fallthrough (s : AlexState) :
    (leftISR s).leftForwardTicks =
      (if s.dir = TDirection.forward then inc32 s.leftForwardTicks
       else s.leftForwardTicks) ∧
    (leftISR s).leftReverseTicks =
      (if s.dir = TDirection.backward then inc32 s.leftReverseTicks
       else s.leftReverseTicks) ∧
    (leftISR s).leftReverseTicksTurns =
      (if s.dir = TDirection.left then inc32 s.leftReverseTicksTurns
       else s.leftReverseTicksTurns) ∧
    (leftISR s).leftForwardTicksTurns =
      (if s.dir = TDirection.right then inc32 s.leftForwardTicksTurns
       else s.leftForwardTicksTurns) ∧
    (leftISR s).rightForwardTicks = s.rightForwardTicks ∧
    (leftISR s).rightReverseTicks = s.rightReverseTicks ∧
    (leftISR s).rightForwardTicksTurns = s.rightForwardTicksTurns ∧
    (leftISR s).rightReverseTicksTurns = s.rightReverseTicksTurns ∧
    (rightISR s).rightForwardTicks =
      (if s.dir = TDirection.forward then inc32 s.rightForwardTicks
       else s.rightForwardTicks) ∧
    (rightISR s).rightReverseTicks =
      (if s.dir = TDirection.forward ∨ s.dir = TDirection.backward then
         inc32 s.rightReverseTicks
       else s.rightReverseTicks) ∧
    (rightISR s).rightForwardTicksTurns =
      (if s.dir = TDirection.forward ∨ s.dir = TDirection.backward ∨
          s.dir = TDirection.left then
         inc32 s.rightForwardTicksTurns
       else s.rightForwardTicksTurns) ∧
    (rightISR s).rightReverseTicksTurns =
      (if s.dir ≠ TDirection.stop then inc32 s.rightReverseTicksTurns
       else s.rightReverseTicksTurns) ∧
    (rightISR s).leftForwardTicks = s.leftForwardTicks ∧
    (rightISR s).leftReverseTicks = s.leftReverseTicks ∧
    (rightISR s).leftForwardTicksTurns = s.leftForwardTicksTurns ∧
    (rightISR s).leftReverseTicksTurns = s.leftReverseTicksTurns := by
  obtain ⟨d, a1, a2, a3, a4, a5, a6, a7, a8, a9, a10, a11, a12, a13, a14,
          a15, a16⟩ := s
  cases d <;> simp [leftISR, rightISR]

/-- C10: in the device's dispatch loop, every successfully decoded packet
whose type is HELLO, RESPONSE, ERROR or MESSAGE is discarded silently —
`handlePacket` emits no packet and leaves the whole device state
unchanged. -/
theorem C10_noncommand_silently_discarded (i : SensorInputs) (s : AlexState)
    (p : TPacket)
    (h : p.packetType = PACKET_TYPE_RESPONSE ∨
         p.packetType = PACKET_TYPE_ERROR ∨
         p.packetType = PACKET_TYPE_MESSAGE ∨
         p.packetType = PACKET_TYPE_HELLO) :
    handlePacket i s p = (s, []) := by
  rcases h with h | h | h | h <;>
    simp [handlePacket, h, PACKET_TYPE_COMMAND, PACKET_TYPE_RESPONSE,
          PACKET_TYPE_ERROR, PACKET_TYPE_MESSAGE, PACKET_TYPE_HELLO]

/-- Witness for C10: a decoded HELLO packet reaching the main loop is
silently discarded. -/
theorem C10_noncommand_silently_discarded_witness :
    handlePacket ⟨0, 0, 0, 0, 0⟩ initialState
      ⟨PACKET_TYPE_HELLO, 0, List.replicate 16 0⟩ = (initialState, []) :=
  C10_noncommand_silently_discarded ⟨0, 0, 0, 0, 0⟩ initialState
    ⟨PACKET_TYPE_HELLO, 0, List.replicate 16 0⟩ (Or.inr (Or.inr (Or.inr rfl)))

end Alex

namespace Alex

/-- Helper: `waitForHello`'s per-frame error replies are never the OK
packet. -/
theorem helloReply_ne_okPacket (r : TResult) (q : TPacket)
    (h : helloReply r = some q) : q ≠ okPacket := by
  cases r with
  | ok p =>
      by_cases hp : p.packetType = PACKET_TYPE_HELLO
      · simp [helloReply, hp] at h
      · simp [helloReply, hp] at h
        subst h
        decide
  | bad =>
      simp [helloReply] at h
      subst h
      decide
  | checksumBad =>
      simp [helloReply] at h
      subst h
      decide
  | incomplete => simp [helloReply] at h

/-- Helper: the OK packet never occurs among the error replies emitted for a
prefix of non-HELLO frames. -/
theorem okPacket_not_mem_helloReplies (pre : List TResult) :
    okPacket ∉ pre.filterMap helloReply := by
  intro hmem
  rw [List.mem_filterMap] at hmem
  obtain ⟨r, _, hr⟩ := hmem
  exact helloReply_ne_okPacket r okPacket hr rfl

/-- C4: `waitForHello` exits exactly on a well-formed HELLO frame; each
earlier frame gets its prescribed reply (decoded non-HELLO → BadResponse,
failed decode → BadPacket, bad checksum → BadChecksum, incomplete read →
silent retry) and the loop continues; when the HELLO arrives after any
finite number of such frames the function returns with OK emitted exactly
once, as the final packet. -/
theorem C4_handshake_liveness (pre post : List TResult) (hello : TPacket)
    (hpre : ∀ r ∈ pre, isHelloFrame r = false)
    (hh : hello.packetType = PACKET_TYPE_HELLO) :
    waitForHello (pre ++ TResult.ok hello :: post) =
      some (pre.filterMap helloReply ++ [okPacket]) ∧
    (pre.filterMap helloReply ++ [okPacket]).count okPacket = 1 := by
  constructor
  · induction pre with
    | nil => simp [waitForHello, hh]
    | cons r rest ih =>
        have hr : isHelloFrame r = false := hpre r (List.mem_cons_self r rest)
        have hrest : ∀ x ∈ rest, isHelloFrame x = false := fun x hx =>
          hpre x (List.mem_cons_of_mem r hx)
        have ih2 := ih hrest
        cases r with
        | ok p =>
            have hp : ¬ p.packetType = PACKET_TYPE_HELLO := by
              simpa [isHelloFrame] using hr
            simp [waitForHello, hp, helloReply, ih2]
        | bad => simp [waitForHello, helloReply, ih2]
        | checksumBad => simp [waitForHello, helloReply, ih2]
        | incomplete => simp [waitForHello, helloReply, ih2]
  · rw [List.count_append]
    have h0 : (pre.filterMap helloReply).count okPacket = 0 :=
      List.count_eq_zero.mpr (okPacket_not_mem_helloReplies pre)
    rw [h0]
    simp [List.count_singleton]

/-- Witness for C4: after a failed decode, a corrupt checksum, a decoded
COMMAND packet and an incomplete read, a HELLO frame makes the handshake
loop reply BadPacket, BadChecksum, BadResponse and then exactly one OK. -/
theorem C4_handshake_liveness_witness :
    waitForHello
        ([TResult.bad, TResult.checksumBad,
          TResult.ok ⟨PACKET_TYPE_COMMAND, 0, List.replicate 16 0⟩,
          TResult.incomplete] ++
         TResult.ok ⟨PACKET_TYPE_HELLO, 0, List.replicate 16 0⟩ :: []) =
      some ([TResult.bad, TResult.checksumBad,
             TResult.ok ⟨PACKET_TYPE_COMMAND, 0, List.replicate 16 0⟩,
             TResult.incomplete].filterMap helloReply ++ [okPacket]) ∧
    ([TResult.bad, TResult.checksumBad,
      TResult.ok ⟨PACKET_TYPE_COMMAND, 0, List.replicate 16 0⟩,
      TResult.incomplete].filterMap helloReply ++ [okPacket]).count okPacket
      = 1 :=
  C4_handshake_liveness
    [TResult.bad, TResult.checksumBad,
     TResult.ok ⟨PACKET_TYPE_COMMAND, 0, List.replicate 16 0⟩,
     TResult.incomplete]
    [] ⟨PACKET_TYPE_HELLO, 0, List.replicate 16 0⟩ (by decide) rfl

/-- C3: a decoded COMMAND packet whose code is not one of the twelve defined
command codes makes `handleCommand` send exactly one BadCommand error,
perform no actuation and change no state; and the dispatch loop goes on to
process the remaining frames from the same state (stated for a
motion-idle state, so the auto-stop blocks contribute nothing). -/
theorem C3_unknown_command_bad_command (i : SensorInputs) (s : AlexState)
    (p : TPacket) (rest : List TResult)
    (hT : p.packetType = PACKET_TYPE_COMMAND)
    (hC : p.command ∉ definedCommands)
    (hD : s.deltaDist = 0) (hK : s.deltaTicks = 0) :
    handleCommand i s p = (s, [Event.sent badCommandPacket]) ∧
    runLoop i s (TResult.ok p :: rest) =
      ((runLoop i s rest).1,
       Event.sent badCommandPacket :: (runLoop i s rest).2) := by
  simp only [definedCommands, List.mem_cons, List.not_mem_nil, or_false,
             not_or] at hC
  obtain ⟨h0, h1, h2, h3, h4, h5, h6, h7, h8, h9, h10, h11⟩ := hC
  have hhc : handleCommand i s p = (s, [Event.sent badCommandPacket]) := by
    simp [handleCommand, h0, h1, h2, h3, h4, h5, h6, h7, h8, h9, h10, h11]
  refine ⟨hhc, ?_⟩
  have hauto1 : autoStopDist s = (s, []) := by
    simp [autoStopDist, hD]
  have hauto2 : autoStopTicks s = (s, []) := by
    simp [autoStopTicks, hK]
  simp [runLoop, loopStep, handlePacket, hT, hhc, hauto1, hauto2]

/-- Witness for C3: code 99 elicits one BadCommand error and the loop goes
on. -/
theorem C3_unknown_command_bad_command_witness :
    handleCommand ⟨0, 0, 0, 0, 0⟩ initialState
        ⟨PACKET_TYPE_COMMAND, 99, List.replicate 16 0⟩ =
      (initialState, [Event.sent badCommandPacket]) ∧
    runLoop ⟨0, 0, 0, 0, 0⟩ initialState
        (TResult.ok ⟨PACKET_TYPE_COMMAND, 99, List.replicate 16 0⟩ :: []) =
      ((runLoop ⟨0, 0, 0, 0, 0⟩ initialState []).1,
       Event.sent badCommandPacket ::
         (runLoop ⟨0, 0, 0, 0, 0⟩ initialState []).2) :=
  C3_unknown_command_bad_command ⟨0, 0, 0, 0, 0⟩ initialState
    ⟨PACKET_TYPE_COMMAND, 99, List.replicate 16 0⟩ [] rfl (by decide) rfl rfl

end Alex

namespace Alex

/-- C6: every recognised command code makes `handleCommand` emit the OK
acknowledgment as its first action and only then invoke the corresponding
collaborator; for the three query commands (get-stats, query-colour,
query-distance) a RESPONSE packet carrying the queried values follows the
collaborator, so the peer sees OK before the query RESPONSE. -/
theorem C6_ok_first_then_collaborator (i : SensorInputs) (s : AlexState)
    (p : TPacket) (h : p.command ∈ definedCommands) :
    (handleCommand i s p).2.head? = some (Event.sent okPacket) ∧
    (p.command = COMMAND_FORWARD →
      handleCommand i s p =
        ((forward (p.params.getD 0 0) (p.params.getD 1 0) s).1,
         [Event.sent okPacket,
          Event.moved (p.params.getD 1 0) TDirection.forward])) ∧
    (p.command = COMMAND_REVERSE →
      handleCommand i s p =
        ((reverse (p.params.getD 0 0) (p.params.getD 1 0) s).1,
         [Event.sent okPacket,
          Event.moved (p.params.getD 1 0) TDirection.backward])) ∧
    (p.command = COMMAND_TURN_LEFT →
      handleCommand i s p =
        ((left (p.params.getD 0 0) (p.params.getD 1 0) s).1,
         [Event.sent okPacket,
          Event.moved (p.params.getD 1 0) TDirection.left])) ∧
    (p.command = COMMAND_TURN_RIGHT →
      handleCommand i s p =
        ((right (p.params.getD 0 0) (p.params.getD 1 0) s).1,
         [Event.sent okPacket,
          Event.moved (p.params.getD 1 0) TDirection.right])) ∧
    (p.command = COMMAND_STOP →
      handleCommand i s p =
        ((stop s).1, [Event.sent okPacket, Event.moved 0 TDirection.stop])) ∧
    (p.command = COMMAND_GET_STATS →
      handleCommand i s p =
        (s, [Event.sent okPacket, Event.sent (sendStatus s)])) ∧
    (p.command = COMMAND_CLEAR_STATS →
      handleCommand i s p =
        (clearOneCounter (p.params.getD 0 0) s, [Event.sent okPacket])) ∧
    (p.command = COMMAND_GRAB →
      handleCommand i s p = (s, [Event.sent okPacket, Event.grabbed])) ∧
    (p.command = COMMAND_RELEASE →
      handleCommand i s p = (s, [Event.sent okPacket, Event.released])) ∧
    (p.command = COMMAND_MED →
      handleCommand i s p = (s, [Event.sent okPacket, Event.medpacked])) ∧
    (p.command = COMMAND_COLOUR →
      handleCommand i s p =
        (s, [Event.sent okPacket, Event.colourRead,
             Event.sent (readColourPacket i)])) ∧
    (p.command = COMMAND_ULTRASONIC →
      handleCommand i s p =
        (s, [Event.sent okPacket, Event.ultrasonicRead,
             Event.sent (sendDist i.ultrasonicDist)])) := by
  simp only [definedCommands, List.mem_cons, List.not_mem_nil, or_false,
             COMMAND_FORWARD, COMMAND_REVERSE, COMMAND_TURN_LEFT,
             COMMAND_TURN_RIGHT, COMMAND_STOP, COMMAND_GET_STATS,
             COMMAND_CLEAR_STATS, COMMAND_GRAB, COMMAND_RELEASE, COMMAND_MED,
             COMMAND_COLOUR, COMMAND_ULTRASONIC] at h ⊢
  rcases h with h | h | h | h | h | h | h | h | h | h | h | h <;>
    simp [handleCommand, h, COMMAND_FORWARD, COMMAND_REVERSE,
          COMMAND_TURN_LEFT, COMMAND_TURN_RIGHT, COMMAND_STOP,
          COMMAND_GET_STATS, COMMAND_CLEAR_STATS, COMMAND_GRAB,
          COMMAND_RELEASE, COMMAND_MED, COMMAND_COLOUR, COMMAND_ULTRASONIC,
          forward, reverse, left, right, stop]

/-- Witness for C6: a COMMAND_ULTRASONIC packet is acknowledged with OK as
the first emitted packet. -/
theorem C6_ok_first_then_collaborator_witness :
    (handleCommand ⟨0, 0, 0, 0, 7⟩ initialState
        ⟨PACKET_TYPE_COMMAND, COMMAND_ULTRASONIC,
         List.replicate 16 0⟩).2.head? = some (Event.sent okPacket) :=
  (C6_ok_first_then_collaborator ⟨0, 0, 0, 0, 7⟩ initialState
    ⟨PACKET_TYPE_COMMAND, COMMAND_ULTRASONIC, List.replicate 16 0⟩
    (by decide)).1

/-- C1: the device-side program dispatches COMMAND packets without any
handshake: `setup()` never invokes `waitForHello` (it is dead code), so a
run whose very first incoming frame is a decoded COMMAND packet — with no
HELLO ever received — already reaches `handleCommand`, which acknowledges
OK and actuates the stop. This closed run refutes the claim that every
execution of `handleCommand` is preceded by `waitForHello` reaching its
exit. -/
theorem C1_dispatch_without_handshake :
    (∀ r ∈ [TResult.ok commandStopPacket], isHelloFrame r = false) ∧
    (deviceMain ⟨0, 0, 0, 0, 0⟩ [TResult.ok commandStopPacket]).2 =
      [Event.sent okPacket, Event.moved 0 TDirection.stop] ∧
    (deviceMain ⟨0, 0, 0, 0, 0⟩ [TResult.ok commandStopPacket]).1.dir =
      TDirection.stop := by
  refine ⟨by decide, by decide, by decide⟩

end Alex

namespace AlexClient

/-- C2: the writer relay builds the 10-byte COMMAND buffer for a forward
keystroke with the baked-in defaults (distance 5, power 50), but `sendData`
calls `sslWrite` with `sizeof` of its pointer parameter — 8 — instead of
the length 10 it was given, so only the first 8 bytes reach the wire and
the last two bytes of the power parameter are lost; a quit keystroke sends
nothing. This closed evaluation exhibits the byte loss. -/
theorem C2_sendData_truncates_packet :
    writerKey 'f' = WriterAction.send (commandBuffer 102 5 50) ∧
    (commandBuffer 102 5 50).length = 10 ∧
    commandBuffer 102 5 50 = [67, 102, 5, 0, 0, 0, 50, 0, 0, 0] ∧
    (sendData true (commandBuffer 102 5 50)).1 =
      [67, 102, 5, 0, 0, 0, 50, 0] ∧
    (sendData true (commandBuffer 102 5 50)).1 ≠ commandBuffer 102 5 50 ∧
    writerKey 'q' = WriterAction.quit := by
  refine ⟨by decide, by decide, by decide, by decide, by decide, by decide⟩

end AlexClient
